import Mathlib

/-!
Shallow embedding of the LoRaWAN Join Server core
(`pkg/joinserver/joinserver.go`): the `HandleJoin` transaction and the
`GetAppSKey` RPC, together with the registry record they mutate.

Machine integers are modelled as `Nat` with explicit `% 2^w` where the Go
code truncates (`uint16`, `uint32`).  Fallible steps return `Except`.
External collaborators (crypto primitives, codec, prefix matcher) that are
not under `src/` are modelled from the spec, as marked on each definition.
-/

namespace joinserver

/-- LoRaWAN MAC versions, from the `ttnpb.MACVersion` proto enum. -/
inductive MACVersion
  | v1_0
  | v1_0_1
  | v1_0_2
  | v1_0_3
  | v1_1
  | unknown
deriving DecidableEq, Repr

/-- Semantic order of MAC versions, as used by `ttnpb.MACVersion.Compare`
(1.0 < 1.0.1 < 1.0.2 < 1.0.3 < 1.1). -/
def MACVersion.rank : MACVersion → Nat
  | .unknown => 0
  | .v1_0 => 1
  | .v1_0_1 => 2
  | .v1_0_2 => 3
  | .v1_0_3 => 4
  | .v1_1 => 5

/-- `supportedMACVersions` from the Go source. -/
def supportedMACVersions : List MACVersion := [.v1_0, .v1_0_1, .v1_0_2, .v1_1]

/-- `ttnpb.KeyEnvelope`: an optional 128-bit key value plus a KEK label.
`key = none` models a nil `*types.AES128Key`; value `0` is the all-zero key. -/
structure KeyEnvelope where
  key : Option Nat
  kekLabel : String
deriving DecidableEq, Repr

/-- Root keys of a device; each envelope pointer may be nil. -/
structure RootKeys where
  appKey : Option KeyEnvelope
  nwkKey : Option KeyEnvelope
deriving DecidableEq, Repr

/-- `ttnpb.SessionKeys`. -/
structure SessionKeys where
  sessionKeyID : String
  fNwkSIntKey : Option KeyEnvelope
  sNwkSIntKey : Option KeyEnvelope
  nwkSEncKey : Option KeyEnvelope
  appSKey : Option KeyEnvelope
deriving DecidableEq, Repr

/-- `ttnpb.Session`: start time (as an abstract instant), DevAddr and keys. -/
structure Session where
  startedAt : Nat
  devAddr : Nat
  sessionKeys : SessionKeys
deriving DecidableEq, Repr

/-- The registry device record, with the fields `HandleJoin`/`GetAppSKey`
read and mutate. -/
structure EndDevice where
  lorawanVersion : MACVersion
  networkServerAddress : String
  applicationServerAddress : String
  rootKeys : Option RootKeys
  nextJoinNonce : Nat
  nextDevNonce : Nat
  usedDevNonces : List Nat
  disableJoinNonceCheck : Bool
  session : Option Session
  sessionFallback : Option Session
deriving DecidableEq, Repr

/-- `ttnpb.MType` (only the cases the join path distinguishes). -/
inductive MType
  | joinRequest
  | joinAccept
  | other
deriving DecidableEq, Repr

/-- `ttnpb.Major`. -/
inductive Major
  | lorawanR1
  | other
deriving DecidableEq, Repr

/-- `ttnpb.JoinRequestPayload`: EUIs as 64-bit values, DevNonce as the
little-endian value of its two bytes. -/
structure JoinRequestPayload where
  joinEUI : Nat
  devEUI : Nat
  devNonce : Nat
deriving DecidableEq, Repr

/-- The `oneof Payload` of `ttnpb.Message`, collapsed to the one variant the
join path inspects. -/
inductive MsgPayload
  | joinRequest (pld : JoinRequestPayload)
  | other
deriving DecidableEq, Repr

/-- `ttnpb.Message`: MHDR fields, MIC bytes and the optional oneof payload
(`none` models an unset oneof, i.e. `GetPayload() == nil`). -/
structure Message where
  mType : MType
  major : Major
  mic : List Nat
  payload : Option MsgPayload
deriving DecidableEq, Repr

/-- `ttnpb.JoinRequest` as consumed by `HandleJoin`; `dlSettings` is the
already-encoded single DLSettings byte and `cfList` the raw CFList content. -/
structure JoinRequest where
  selectedMacVersion : MACVersion
  devAddr : Option Nat
  netID : Nat
  dlSettings : Nat
  rxDelay : Nat
  cfList : Option (List Nat)
  rawPayload : Option (List Nat)
  payload : Message
deriving DecidableEq, Repr

/-- `ttnpb.JoinResponse`. -/
structure JoinResponse where
  rawPayload : List Nat
  sessionKeys : SessionKeys
  lifetime : Option Nat
deriving DecidableEq, Repr

/-- `ttnpb.SessionKeyRequest`. -/
structure SessionKeyRequest where
  devEUI : Nat
  sessionKeyID : String
deriving DecidableEq, Repr

/-- `ttnpb.AppSKeyResponse`. -/
structure AppSKeyResponse where
  appSKey : KeyEnvelope
deriving DecidableEq, Repr

/-- Causes wrapped in `CorruptRegistry`. -/
inductive RegistryFault
  | appKeyEnvelopeNotFound
  | appKeyNotFound
  | nwkKeyEnvelopeNotFound
  | nwkKeyNotFound
deriving DecidableEq, Repr

/-- Failure modes of `checkMIC`. -/
inductive MICFault
  | badLength (n : Nat)
  | computeFailed
  | mismatch
deriving DecidableEq, Repr

/-- The error taxonomy surfaced by the join server core. -/
inductive JSError
  | unsupportedMACVersion
  | missingDevAddr
  | missingPayload
  | unmarshalPayloadFailed
  | unsupportedLoRaWANVersion
  | wrongPayloadType
  | missingJoinRequest
  | missingDevEUI
  | missingJoinEUI
  | marshalPanic
  | deviceNotFound
  | addressMismatch (component : String)
  | unknownAppEUI
  | forwardJoinRequest
  | macVersionMismatch
  | corruptRegistry (f : RegistryFault)
  | devNonceTooSmall
  | devNonceTooHigh
  | devNonceReused
  | unreachableVersion
  | micCheckFailed (f : MICFault)
  | computeMICFailed
  | encryptPayloadFailed
  | missingSessionKeyID
  | noSession
  | sessionKeyIDMismatch
  | appSKeyEnvelopeNotFound
deriving DecidableEq, Repr

/-- Little-endian byte encoding of `n` on `w` bytes. -/
def le (w n : Nat) : List Nat := (List.range w).map fun i => n / 256 ^ i % 256

/-- Little-endian value of a byte list. -/
def de (bs : List Nat) : Nat := bs.foldr (fun b acc => b % 256 + 256 * acc) 0

/-- Modelled from the spec: MHDR byte layout (MType in the top 3 bits,
Major in the low 2); the `ttnpb` LoRaWAN codec is not under `src/`. -/
def MType.code : MType → Nat
  | .joinRequest => 0
  | .joinAccept => 1
  | .other => 2

/-- Modelled from the spec: numeric Major codes. -/
def Major.code : Major → Nat
  | .lorawanR1 => 0
  | .other => 1

/-- Modelled from the spec: the single MHDR byte. -/
def encodeMHDR (t : MType) (m : Major) : Nat := t.code * 32 + m.code

/-- Modelled from the spec: the CFList wire form is exactly 16 bytes
(spec section 4.1); the `ttnpb` codec is not under `src/`. -/
def encodeCFList (c : List Nat) : List Nat := (c ++ List.replicate 16 0).take 16

/-- Modelled from the spec: Join-Accept plaintext
`MHDR(1) || JoinNonce(3) || NetID(3) || DevAddr(4) || DLSettings(1) ||
RxDelay(1) || [CFList(16)]` (spec section 4.1). -/
def buildJoinAccept (major : Major) (jn netID devAddr dl rx : Nat)
    (cf : Option (List Nat)) : List Nat :=
  [encodeMHDR .joinAccept major] ++ le 3 jn ++ le 3 netID ++ le 4 devAddr
    ++ [dl % 256] ++ [rx % 256]
    ++ (match cf with | none => [] | some c => encodeCFList c)

/-- Modelled from the spec: the 23-byte Join-Request wire form
`MHDR(1) || JoinEUI(8 LE) || DevEUI(8 LE) || DevNonce(2 LE) || MIC(4)`
(spec section 4.1); `Message.MarshalLoRaWAN` is not under `src/`. -/
def marshalMessage (m : Message) : Option (List Nat) :=
  match m.payload with
  | some (.joinRequest p) =>
      some ([encodeMHDR m.mType m.major] ++ le 8 p.joinEUI ++ le 8 p.devEUI
        ++ le 2 p.devNonce ++ (m.mic ++ List.replicate 4 0).take 4)
  | _ => none

/-- Modelled from the spec: parse of a 23-byte Join-Request raw payload
(spec section 4.1); `Message.UnmarshalLoRaWAN` is not under `src/`. -/
def unmarshalMessage (raw : List Nat) : Option Message :=
  if raw.length = 23 ∧ raw.headD 0 / 32 % 8 = 0 then
    some { mType := .joinRequest
           major := if raw.headD 0 % 4 = 0 then .lorawanR1 else .other
           mic := raw.drop 19
           payload := some (.joinRequest
             { joinEUI := de ((raw.drop 1).take 8)
               devEUI := de ((raw.drop 9).take 8)
               devNonce := de ((raw.drop 17).take 2) }) }
  else none

/-- The external crypto primitives (`pkg/crypto`, outside `src/`),
abstracted as an injectable record per spec section 2; the MIC and encrypt
primitives may fail only for internal reasons. -/
structure Crypto where
  computeJoinRequestMIC : Nat → List Nat → Option (List Nat)
  computeJoinAcceptMIC : Nat → Nat → Nat → Nat → List Nat → Option (List Nat)
  computeLegacyJoinAcceptMIC : Nat → List Nat → Option (List Nat)
  encryptJoinAccept : Nat → List Nat → Option (List Nat)
  deriveJSIntKey : Nat → Nat → Nat
  deriveFNwkSIntKey : Nat → Nat → Nat → Nat → Nat
  deriveSNwkSIntKey : Nat → Nat → Nat → Nat → Nat
  deriveNwkSEncKey : Nat → Nat → Nat → Nat → Nat
  deriveAppSKey : Nat → Nat → Nat → Nat → Nat
  deriveLegacyNwkSKey : Nat → Nat → Nat → Nat → Nat
  deriveLegacyAppSKey : Nat → Nat → Nat → Nat → Nat

/-- `checkMIC` from the Go source: demand a 23-byte raw payload, compute the
MIC over the first 19 bytes, compare against bytes 19..22.
`none` means the check passed. -/
def checkMIC (c : Crypto) (key : Nat) (raw : List Nat) : Option MICFault :=
  if raw.length ≠ 23 then some (.badLength raw.length)
  else match c.computeJoinRequestMIC key (raw.take 19) with
    | none => some .computeFailed
    | some computed =>
        if (List.range 4).all
            (fun i => computed.getD i 0 = raw.getD (19 + i) 0) then none
        else some .mismatch

/-- Modelled from the spec: an EUI64 prefix compares the top
`lengthBits` bits (spec section 4.2); `types.EUI64Prefix.Matches` is not
under `src/`. -/
structure EUIPfx where
  value : Nat
  lengthBits : Nat
deriving DecidableEq, Repr

/-- Modelled from the spec: top-bits comparison (spec section 4.2). -/
def EUIPfx.matchesEUI (p : EUIPfx) (eui : Nat) : Bool :=
  p.value % 2 ^ 64 / 2 ^ (64 - min p.lengthBits 64)
    = eui % 2 ^ 64 / 2 ^ (64 - min p.lengthBits 64)

/-- Join server configuration: the JoinEUI prefixes it claims. -/
structure Config where
  euiPfxs : List EUIPfx
deriving DecidableEq, Repr

/-- The caller metadata the RPC layer exposes: the advertised network
address (`rpcmetadata.FromIncomingContext(ctx).NetAddress`). -/
structure CallCtx where
  netAddress : String
deriving DecidableEq, Repr

/-- The data `HandleJoin` has in hand once the request is validated and
parsed: DevAddr, authoritative raw payload, MHDR major, identifiers,
and the 16-bit DevNonce value `dn`. -/
structure Parsed where
  devAddr : Nat
  rawPayload : List Nat
  major : Major
  joinEUI : Nat
  devEUI : Nat
  devNonce : Nat
deriving DecidableEq, Repr

/-- Payload resolution (Go lines 123-131): prefer the structured payload,
otherwise unmarshal the raw one. -/
def resolveMessage (req : JoinRequest) : Except JSError Message :=
  match req.payload.payload with
  | some _ => .ok req.payload
  | none =>
    match req.rawPayload with
    | none => .error .missingPayload
    | some raw =>
      match unmarshalMessage raw with
      | none => .error .unmarshalPayloadFailed
      | some m => .ok m

/-- Raw payload resolution (Go lines 157-162): keep a provided raw payload,
otherwise marshal the structured message (a marshal failure panics in Go,
modelled as a distinguished error). -/
def resolveRaw (req : JoinRequest) (msg : Message) : Except JSError (List Nat) :=
  match req.rawPayload with
  | some raw => .ok raw
  | none =>
    match marshalMessage msg with
    | none => .error .marshalPanic
    | some raw => .ok raw

/-- The request-only validation of `HandleJoin` (Go lines 103-162):
version gate, required fields, header checks, identifier checks, and
resolution of the authoritative raw payload. -/
def parseStage (req : JoinRequest) : Except JSError Parsed :=
  if req.selectedMacVersion ∈ supportedMACVersions then
    match req.devAddr with
    | none => .error .missingDevAddr
    | some devAddr =>
      match resolveMessage req with
      | .error e => .error e
      | .ok msg =>
        if msg.major ≠ .lorawanR1 then .error .unsupportedLoRaWANVersion
        else if msg.mType ≠ .joinRequest then .error .wrongPayloadType
        else
          match msg.payload with
          | some (.joinRequest pld) =>
            if pld.devEUI = 0 then .error .missingDevEUI
            else if pld.joinEUI = 0 then .error .missingJoinEUI
            else
              match resolveRaw req msg with
              | .error e => .error e
              | .ok raw =>
                .ok { devAddr := devAddr, rawPayload := raw, major := msg.major
                      joinEUI := pld.joinEUI, devEUI := pld.devEUI
                      devNonce := pld.devNonce % 65536 }
          | _ => .error .missingJoinRequest
  else .error .unsupportedMACVersion

/-- The device-facing validation of `HandleJoin` (Go lines 164-209):
registry lookup, caller-address check, JoinEUI prefix routing, version
compatibility, and the AppKey envelope checks.  Returns the parsed data,
the device and the AppKey value. -/
def preflight (cfg : Config) (ctx : CallCtx) (lookup : Option EndDevice)
    (req : JoinRequest) : Except JSError (Parsed × EndDevice × Nat) :=
  match parseStage req with
  | .error e => .error e
  | .ok pr =>
    match lookup with
    | none => .error .deviceNotFound
    | some dev =>
      if ctx.netAddress ≠ dev.networkServerAddress then
        .error (.addressMismatch "Network Server")
      else if ¬ cfg.euiPfxs.any (fun p => p.matchesEUI pr.joinEUI) then
        if dev.lorawanVersion = .v1_0 then .error .unknownAppEUI
        else .error .forwardJoinRequest
      else if dev.lorawanVersion.rank < req.selectedMacVersion.rank then
        .error .macVersionMismatch
      else
        match dev.rootKeys.bind RootKeys.appKey with
        | none => .error (.corruptRegistry .appKeyEnvelopeNotFound)
        | some ke =>
          match ke.key with
          | none => .error (.corruptRegistry .appKeyNotFound)
          | some k =>
            if k = 0 then .error (.corruptRegistry .appKeyNotFound)
            else .ok (pr, dev, k)

/-- The replay check (Go lines 243-263).  For v1.1 this is where
`NextDevNonce` is advanced: `uint32(dn + 1)` with `dn : uint16`, i.e.
`(dn + 1) % 2^16`.  For v1.0/1.0.x the nonce must not occur in
`usedDevNonces` (compared as `uint16`). -/
def nonceCheckStep (ver : MACVersion) (dn : Nat) (dev : EndDevice) :
    Except JSError EndDevice :=
  if dev.disableJoinNonceCheck then .ok dev
  else
    match ver with
    | .v1_1 =>
      if dn < dev.nextDevNonce then .error .devNonceTooSmall
      else if dev.nextDevNonce = 4294967295 then .error .devNonceTooHigh
      else .ok { dev with nextDevNonce := (dn + 1) % 65536 }
    | .v1_0 | .v1_0_1 | .v1_0_2 =>
      if dev.usedDevNonces.any (fun used => dn = used % 65536) then
        .error .devNonceReused
      else .ok dev
    | _ => .error .unreachableVersion

/-- A clear-key envelope, as built by `keyPointer` plus an empty KEK label. -/
def keyEnv (k : Nat) : KeyEnvelope := { key := some k, kekLabel := "" }

/-- The MAC-version-specific tail of `HandleJoin` (Go lines 265-342):
NwkKey checks (v1.1), Join-Request MIC check, Join-Accept MIC, encryption,
and session-key derivation.  The second component records the root keys
over which a MIC computation was performed. -/
def versionPath (c : Crypto) (ver : MACVersion) (dev : EndDevice)
    (appKey : Nat) (pr : Parsed) (jn : Nat) (b : List Nat) (netID : Nat) :
    Except JSError JoinResponse × List Nat :=
  match ver with
  | .v1_1 =>
    match dev.rootKeys.bind RootKeys.nwkKey with
    | none => (.error (.corruptRegistry .nwkKeyEnvelopeNotFound), [])
    | some ke =>
      match ke.key with
      | none => (.error (.corruptRegistry .nwkKeyNotFound), [])
      | some nwkKey =>
        if nwkKey = 0 then (.error (.corruptRegistry .nwkKeyNotFound), [])
        else
          match checkMIC c nwkKey pr.rawPayload with
          | some f => (.error (.micCheckFailed f), [nwkKey])
          | none =>
            match c.computeJoinAcceptMIC (c.deriveJSIntKey nwkKey pr.devEUI)
                255 pr.joinEUI pr.devNonce b with
            | none => (.error .computeMICFailed, [nwkKey])
            | some mic =>
              match c.encryptJoinAccept nwkKey (b.drop 1 ++ mic) with
              | none => (.error .encryptPayloadFailed, [nwkKey])
              | some enc =>
                (.ok { rawPayload := b.take 1 ++ enc
                       sessionKeys :=
                         { sessionKeyID := ""
                           fNwkSIntKey := some (keyEnv
                             (c.deriveFNwkSIntKey nwkKey jn pr.joinEUI pr.devNonce))
                           sNwkSIntKey := some (keyEnv
                             (c.deriveSNwkSIntKey nwkKey jn pr.joinEUI pr.devNonce))
                           nwkSEncKey := some (keyEnv
                             (c.deriveNwkSEncKey nwkKey jn pr.joinEUI pr.devNonce))
                           appSKey := some (keyEnv
                             (c.deriveAppSKey appKey jn pr.joinEUI pr.devNonce)) }
                       lifetime := none }, [nwkKey])
  | .v1_0 | .v1_0_1 | .v1_0_2 =>
    match checkMIC c appKey pr.rawPayload with
    | some f => (.error (.micCheckFailed f), [appKey])
    | none =>
      match c.computeLegacyJoinAcceptMIC appKey b with
      | none => (.error .computeMICFailed, [appKey])
      | some mic =>
        match c.encryptJoinAccept appKey (b.drop 1 ++ mic) with
        | none => (.error .encryptPayloadFailed, [appKey])
        | some enc =>
          (.ok { rawPayload := b.take 1 ++ enc
                 sessionKeys :=
                   { sessionKeyID := ""
                     fNwkSIntKey := some (keyEnv
                       (c.deriveLegacyNwkSKey appKey jn netID pr.devNonce))
                     sNwkSIntKey := none
                     nwkSEncKey := none
                     appSKey := some (keyEnv
                       (c.deriveLegacyAppSKey appKey jn netID pr.devNonce)) }
                 lifetime := none }, [appKey])
  | _ => (.error .unreachableVersion, [])

deriving instance DecidableEq for Except

/-- The observable outcome of one `HandleJoin` call: the RPC result, the
root keys over which a MIC computation was performed, the record passed to
`Store` (if `Store` was invoked at all), and whether that store failed and
was merely logged. -/
structure JoinOutcome where
  result : Except JSError JoinResponse
  micKeys : List Nat
  stored : Option EndDevice
  storeFailed : Bool
deriving DecidableEq, Repr

/-- `HandleJoin` (Go lines 100-360).  `lookup` is the registry answer for
`(DevEUI, JoinEUI)`; `storeOk` is whether the final `dev.Store()` would
succeed; `now` is the current UTC instant.  On success the record is
committed with the DevNonce appended to `usedDevNonces`, `nextJoinNonce`
incremented (as `uint32`), and the new session installed; a store failure
is logged and the response returned regardless. -/
def joinAcceptBuf (dev : EndDevice) (pr : Parsed) (req : JoinRequest) : List Nat :=
  buildJoinAccept pr.major (dev.nextJoinNonce % 16777216) req.netID pr.devAddr
    req.dlSettings req.rxDelay req.cfList

/-- The commit of a successful join to the device record (Go lines 344-350):
append the DevNonce to `usedDevNonces`, advance `nextJoinNonce` (`uint32`),
and install the new session; `sessionFallback` is not touched. -/
def commitJoin (now : Nat) (pr : Parsed) (resp : JoinResponse)
    (dev1 : EndDevice) : EndDevice :=
  { dev1 with
    usedDevNonces := dev1.usedDevNonces ++ [pr.devNonce]
    nextJoinNonce := (dev1.nextJoinNonce + 1) % 4294967296
    session := some { startedAt := now, devAddr := pr.devAddr
                      sessionKeys := resp.sessionKeys } }

def handleJoin (c : Crypto) (cfg : Config) (ctx : CallCtx) (storeOk : Bool)
    (now : Nat) (lookup : Option EndDevice) (req : JoinRequest) : JoinOutcome :=
  match preflight cfg ctx lookup req with
  | .error e => { result := .error e, micKeys := [], stored := none, storeFailed := false }
  | .ok (pr, dev, appKey) =>
    match nonceCheckStep req.selectedMacVersion pr.devNonce dev with
    | .error e => { result := .error e, micKeys := [], stored := none, storeFailed := false }
    | .ok dev1 =>
      match versionPath c req.selectedMacVersion dev1 appKey pr
          (dev.nextJoinNonce % 16777216) (joinAcceptBuf dev pr req) req.netID with
      | (.error e, ks) => { result := .error e, micKeys := ks, stored := none, storeFailed := false }
      | (.ok resp, ks) =>
        { result := .ok resp, micKeys := ks
          stored := some (commitJoin now pr resp dev1), storeFailed := !storeOk }

/-- `GetAppSKey` (Go lines 363-403). -/
def getAppSKey (ctx : CallCtx) (lookup : Option EndDevice)
    (req : SessionKeyRequest) : Except JSError AppSKeyResponse :=
  if req.devEUI = 0 then .error .missingDevEUI
  else if req.sessionKeyID = "" then .error .missingSessionKeyID
  else
    match lookup with
    | none => .error .deviceNotFound
    | some dev =>
      if ctx.netAddress ≠ dev.applicationServerAddress then
        .error (.addressMismatch "Application Server")
      else
        match dev.session with
        | none => .error .noSession
        | some s =>
          if s.sessionKeys.sessionKeyID ≠ req.sessionKeyID then
            match dev.sessionFallback with
            | none => .error .sessionKeyIDMismatch
            | some f =>
              if f.sessionKeys.sessionKeyID ≠ req.sessionKeyID then
                .error .sessionKeyIDMismatch
              else
                match f.sessionKeys.appSKey with
                | none => .error .appSKeyEnvelopeNotFound
                | some ke => .ok { appSKey := ke }
          else
            match s.sessionKeys.appSKey with
            | none => .error .appSKeyEnvelopeNotFound
            | some ke => .ok { appSKey := ke }

/-- `GetAppSKey`'s session-selection behavior exactly as claim C8 words it
(spec section 4.4.2), to be compared with the embedded `getAppSKey`:
no session is `NoSession`; a mismatched current session falls back to the
fallback session, `SessionKeyIDMismatch` when that is absent or mismatched;
a selected session without an AppSKey envelope is `AppSKeyEnvelopeNotFound`;
otherwise the envelope is returned. -/
def getAppSKeySpecByClaim (dev : EndDevice) (req : SessionKeyRequest) :
    Except JSError AppSKeyResponse :=
  match dev.session with
  | none => .error .noSession
  | some s =>
    if s.sessionKeys.sessionKeyID = req.sessionKeyID then
      match s.sessionKeys.appSKey with
      | none => .error .appSKeyEnvelopeNotFound
      | some ke => .ok { appSKey := ke }
    else
      match dev.sessionFallback with
      | none => .error .sessionKeyIDMismatch
      | some f =>
        if f.sessionKeys.sessionKeyID = req.sessionKeyID then
          match f.sessionKeys.appSKey with
          | none => .error .appSKeyEnvelopeNotFound
          | some ke => .ok { appSKey := ke }
        else .error .sessionKeyIDMismatch

/-- A concrete crypto instance for closed runs: MICs are all-zero bytes,
encryption is the identity, derivations are injective offsets. -/
def cCrypto : Crypto where
  computeJoinRequestMIC := fun _ _ => some [0, 0, 0, 0]
  computeJoinAcceptMIC := fun _ _ _ _ _ => some [0, 0, 0, 0]
  computeLegacyJoinAcceptMIC := fun _ _ => some [0, 0, 0, 0]
  encryptJoinAccept := fun _ b => some b
  deriveJSIntKey := fun k _ => k
  deriveFNwkSIntKey := fun k _ _ _ => k + 1
  deriveSNwkSIntKey := fun k _ _ _ => k + 2
  deriveNwkSEncKey := fun k _ _ _ => k + 3
  deriveAppSKey := fun k _ _ _ => k + 4
  deriveLegacyNwkSKey := fun k _ _ _ => k + 5
  deriveLegacyAppSKey := fun k _ _ _ => k + 6

/-- A 23-byte all-zero Join-Request raw payload; its MIC bytes (19..22)
match what `cCrypto` computes. -/
def cRaw : List Nat := List.replicate 23 0

/-- Root keys with AppKey 1 and NwkKey 2. -/
def cKeys : RootKeys :=
  { appKey := some (keyEnv 1), nwkKey := some (keyEnv 2) }

/-- A provisioned v1.1 device with the join-nonce check enabled. -/
def cDev : EndDevice where
  lorawanVersion := .v1_1
  networkServerAddress := "ns.example.com"
  applicationServerAddress := "as.example.com"
  rootKeys := some cKeys
  nextJoinNonce := 1
  nextDevNonce := 0
  usedDevNonces := []
  disableJoinNonceCheck := false
  session := none
  sessionFallback := none

/-- A structured Join-Request message carrying DevNonce `dn`. -/
def cMsg (dn : Nat) : Message where
  mType := .joinRequest
  major := .lorawanR1
  mic := [0, 0, 0, 0]
  payload := some (.joinRequest { joinEUI := 1, devEUI := 1, devNonce := dn })

/-- A v1.1 join request carrying DevNonce `dn`, no CFList. -/
def cReq (dn : Nat) : JoinRequest where
  selectedMacVersion := .v1_1
  devAddr := some 1
  netID := 1
  dlSettings := 0
  rxDelay := 1
  cfList := none
  rawPayload := some cRaw
  payload := cMsg dn

/-- A catch-all prefix configuration (zero-length prefix matches any EUI). -/
def cCfg : Config := { euiPfxs := [{ value := 0, lengthBits := 0 }] }

/-- The caller context matching `cDev`'s network server address. -/
def cCtx : CallCtx := { netAddress := "ns.example.com" }

/-- The parse result of `cReq dn`. -/
def cParsed (dn : Nat) : Parsed where
  devAddr := 1
  rawPayload := cRaw
  major := .lorawanR1
  joinEUI := 1
  devEUI := 1
  devNonce := dn % 65536

/-- Extract the value of a successful `Except`, with a fallback. -/
def okD {ε α : Type} (d : α) : Except ε α → α
  | .ok a => a
  | .error _ => d

/-- A parsed request always carries a 16-bit DevNonce value: `dn` is read
with `binary.LittleEndian.Uint16`. -/
theorem parseStage_devNonce_lt (req : JoinRequest) (pr : Parsed)
    (h : parseStage req = .ok pr) : pr.devNonce < 65536 := by
  unfold parseStage at h
  repeat' split at h
  all_goals try exact Except.noConfusion h
  cases h
  exact Nat.mod_lt _ (by norm_num)

/-- A successful preflight means the parse succeeded on the same data and
the registry lookup returned the same device. -/
theorem preflight_ok_parse {cfg : Config} {ctx : CallCtx}
    {lookup : Option EndDevice} {req : JoinRequest} {pr : Parsed}
    {dev : EndDevice} {ak : Nat}
    (h : preflight cfg ctx lookup req = .ok (pr, dev, ak)) :
    parseStage req = .ok pr ∧ lookup = some dev := by
  unfold preflight at h
  repeat' split at h
  all_goals try exact Except.noConfusion h
  simp only [Except.ok.injEq, Prod.mk.injEq] at h
  obtain ⟨rfl, rfl, rfl⟩ := h
  exact ⟨by assumption, by first | assumption | rfl⟩

/-- The replay check only ever touches `nextDevNonce`: every other field of
the device record is preserved. -/
theorem nonceCheckStep_preserves (ver : MACVersion) (dn : Nat)
    (dev dev1 : EndDevice) (h : nonceCheckStep ver dn dev = .ok dev1) :
    dev1.sessionFallback = dev.sessionFallback ∧ dev1.session = dev.session ∧
    dev1.usedDevNonces = dev.usedDevNonces ∧
    dev1.nextJoinNonce = dev.nextJoinNonce := by
  unfold nonceCheckStep at h
  repeat' split at h
  all_goals try exact Except.noConfusion h
  all_goals (cases h; exact ⟨rfl, rfl, rfl, rfl⟩)

/-- With the join-nonce check disabled, the replay step is a no-op. -/
theorem nonceCheckStep_disabled (ver : MACVersion) (dn : Nat)
    (dev : EndDevice) (h : dev.disableJoinNonceCheck = true) :
    nonceCheckStep ver dn dev = .ok dev := by
  unfold nonceCheckStep
  rw [h]
  rfl

/-- Every successful `HandleJoin` invokes `Store` with exactly the committed
record: the preflight device taken through the replay step and `commitJoin`. -/
theorem handleJoin_ok_stored (c : Crypto) (cfg : Config) (ctx : CallCtx)
    (storeOk : Bool) (now : Nat) (lookup : Option EndDevice)
    (req : JoinRequest) (pr : Parsed) (dev : EndDevice) (ak : Nat)
    (resp : JoinResponse)
    (hpf : preflight cfg ctx lookup req = .ok (pr, dev, ak))
    (hres : (handleJoin c cfg ctx storeOk now lookup req).result = .ok resp) :
    ∃ dev1 ks,
      nonceCheckStep req.selectedMacVersion pr.devNonce dev = .ok dev1 ∧
      versionPath c req.selectedMacVersion dev1 ak pr
        (dev.nextJoinNonce % 16777216) (joinAcceptBuf dev pr req) req.netID
        = (.ok resp, ks) ∧
      (handleJoin c cfg ctx storeOk now lookup req).stored
        = some (commitJoin now pr resp dev1) := by
  revert hres
  unfold handleJoin
  simp only [hpf]
  rcases hn : nonceCheckStep req.selectedMacVersion pr.devNonce dev with e | dev1
  · intro hres
    exact absurd hres (by simp)
  · simp only []
    rcases hv : versionPath c req.selectedMacVersion dev1 ak pr
        (dev.nextJoinNonce % 16777216) (joinAcceptBuf dev pr req) req.netID
      with ⟨res, ks⟩
    cases res with
    | error e => intro hres; exact absurd hres (by simp)
    | ok r =>
      intro hres
      simp only [Except.ok.injEq] at hres
      subst hres
      exact ⟨dev1, ks, rfl, hv, rfl⟩

/-- C5: a `HandleJoin` call that returns an error never invokes `Store`
(and hence never logs a store failure): every error path leaves the
persisted device record untouched. -/
theorem c5_no_store_on_error (c : Crypto) (cfg : Config) (ctx : CallCtx)
    (storeOk : Bool) (now : Nat) (lookup : Option EndDevice)
    (req : JoinRequest) (e : JSError)
    (h : (handleJoin c cfg ctx storeOk now lookup req).result = .error e) :
    (handleJoin c cfg ctx storeOk now lookup req).stored = none ∧
    (handleJoin c cfg ctx storeOk now lookup req).storeFailed = false := by
  revert h
  unfold handleJoin
  repeat' split
  all_goals intro h
  all_goals simp_all

/-- C6: a caller whose network address differs from the device's
`network_server_address` is rejected with `AddressMismatch(NetworkServer)`,
and no MIC computation over the device's root key material is performed. -/
theorem c6_address_mismatch_before_mic (c : Crypto) (cfg : Config)
    (ctx : CallCtx) (storeOk : Bool) (now : Nat) (req : JoinRequest)
    (pr : Parsed) (dev : EndDevice)
    (hparse : parseStage req = .ok pr)
    (hne : ctx.netAddress ≠ dev.networkServerAddress) :
    (handleJoin c cfg ctx storeOk now (some dev) req).result
      = .error (.addressMismatch "Network Server") ∧
    (handleJoin c cfg ctx storeOk now (some dev) req).micKeys = [] := by
  have hpf : preflight cfg ctx (some dev) req
      = .error (.addressMismatch "Network Server") := by
    unfold preflight
    simp only [hparse]
    simp [hne]
  unfold handleJoin
  simp [hpf]

/-- C7: once a join has succeeded (keys derived, response assembled), a
failing registry store changes nothing for the caller: the same
`JoinResponse` is returned with no error, the same record was passed to
`Store`, and the failure is merely logged. -/
theorem c7_store_failure_logged_only (c : Crypto) (cfg : Config)
    (ctx : CallCtx) (now : Nat) (lookup : Option EndDevice)
    (req : JoinRequest) (resp : JoinResponse)
    (h : (handleJoin c cfg ctx true now lookup req).result = .ok resp) :
    (handleJoin c cfg ctx false now lookup req).result = .ok resp ∧
    (handleJoin c cfg ctx false now lookup req).storeFailed = true ∧
    (handleJoin c cfg ctx false now lookup req).stored
      = (handleJoin c cfg ctx true now lookup req).stored := by
  revert h
  unfold handleJoin
  repeat' split
  all_goals intro h
  all_goals simp_all

/-- C10: on a v1.1 join with `disable_join_nonce_check` set, a successful
`HandleJoin` leaves `next_dev_nonce` unchanged: the counter advance sits
inside the skipped replay-check block. -/
theorem c10_disable_check_preserves_nonce (c : Crypto) (cfg : Config)
    (ctx : CallCtx) (storeOk : Bool) (now : Nat) (lookup : Option EndDevice)
    (req : JoinRequest) (pr : Parsed) (dev : EndDevice) (ak : Nat)
    (resp : JoinResponse)
    (hpf : preflight cfg ctx lookup req = .ok (pr, dev, ak))
    (_hver : req.selectedMacVersion = .v1_1)
    (hdis : dev.disableJoinNonceCheck = true)
    (hres : (handleJoin c cfg ctx storeOk now lookup req).result = .ok resp) :
    ∃ dev2, (handleJoin c cfg ctx storeOk now lookup req).stored = some dev2 ∧
      dev2.nextDevNonce = dev.nextDevNonce := by
  obtain ⟨dev1, -, hn, -, hst⟩ :=
    handleJoin_ok_stored c cfg ctx storeOk now lookup req pr dev ak resp hpf hres
  rw [nonceCheckStep_disabled _ _ _ hdis] at hn
  injection hn with hn
  subst hn
  exact ⟨commitJoin now pr resp dev, hst, rfl⟩

/-- An empty response literal, used only as the fallback of `okD`. -/
def dResp : JoinResponse where
  rawPayload := []
  sessionKeys :=
    { sessionKeyID := "", fNwkSIntKey := none, sNwkSIntKey := none
      nwkSEncKey := none, appSKey := none }
  lifetime := none

/-- A v1.1 device one step below the 16-bit DevNonce ceiling. -/
def cDevC1 : EndDevice := { cDev with nextDevNonce := 65535 }

/-- C1: the claim fails on the code.  The v1.1 replay counter is advanced
as `uint32(dn + 1)` with `dn : uint16`, so accepting DevNonce 0xFFFF wraps
`next_dev_nonce` to 0 — not a value greater than the accepted nonce — and a
subsequent join with DevNonce 0 is accepted again: the accepted sequence
65535, 0 is not strictly increasing. -/
theorem c1_devnonce_counter_wraps :
    (handleJoin cCrypto cCfg cCtx true 0 (some cDevC1) (cReq 65535)).result.isOk
      = true ∧
    (handleJoin cCrypto cCfg cCtx true 0 (some cDevC1) (cReq 65535)).stored.map
      EndDevice.nextDevNonce = some 0 ∧
    (handleJoin cCrypto cCfg cCtx true 1
      ((handleJoin cCrypto cCfg cCtx true 0 (some cDevC1) (cReq 65535)).stored)
      (cReq 0)).result.isOk = true := by decide

/-- A v1.1 device whose `next_dev_nonce` sits at `2^32 - 1`. -/
def cDevC2 : EndDevice := { cDev with nextDevNonce := 4294967295 }

/-- C2 counterexample: with `next_dev_nonce = 2^32 - 1` the v1.1 join fails
with `DevNonceTooSmall`, not `DevNonceTooHigh`: the too-small comparison
runs first and any 16-bit DevNonce is below `2^32 - 1`. -/
theorem c2_counterexample :
    (handleJoin cCrypto cCfg cCtx true 0 (some cDevC2) (cReq 5)).result
      = .error .devNonceTooSmall ∧
    (handleJoin cCrypto cCfg cCtx true 0 (some cDevC2) (cReq 5)).result
      ≠ .error .devNonceTooHigh := by decide

/-- C2 (amended): a v1.1 join that reaches the replay check on a device with
the check enabled and `next_dev_nonce = 2^32 - 1` fails — but with
`DevNonceTooSmall`: the 16-bit DevNonce is always below `2^32 - 1` and that
comparison precedes the `DevNonceTooHigh` check, which is unreachable. -/
theorem c2_amended (c : Crypto) (cfg : Config) (ctx : CallCtx)
    (storeOk : Bool) (now : Nat) (lookup : Option EndDevice)
    (req : JoinRequest) (pr : Parsed) (dev : EndDevice) (ak : Nat)
    (hpf : preflight cfg ctx lookup req = .ok (pr, dev, ak))
    (hver : req.selectedMacVersion = .v1_1)
    (hchk : dev.disableJoinNonceCheck = false)
    (hmax : dev.nextDevNonce = 4294967295) :
    (handleJoin c cfg ctx storeOk now lookup req).result
      = .error .devNonceTooSmall := by
  have hlt : pr.devNonce < 65536 :=
    parseStage_devNonce_lt _ _ (preflight_ok_parse hpf).1
  have hsm : pr.devNonce < 4294967295 := by omega
  have hn : nonceCheckStep req.selectedMacVersion pr.devNonce dev
      = .error .devNonceTooSmall := by
    rw [hver]
    unfold nonceCheckStep
    rw [hchk, hmax]
    simp [hsm]
  unfold handleJoin
  simp [hpf, hn]

/-- C2 witness. -/
theorem c2_amended_witness :
    (handleJoin cCrypto cCfg cCtx true 0 (some cDevC2) (cReq 5)).result
      = .error .devNonceTooSmall :=
  c2_amended cCrypto cCfg cCtx true 0 (some cDevC2) (cReq 5) (cParsed 5)
    cDevC2 1 (by decide) (by decide) (by decide) (by decide)

/-- A pre-existing session, to observe the (absent) rotation. -/
def cSess0 : Session where
  startedAt := 0
  devAddr := 9
  sessionKeys :=
    { sessionKeyID := "old", fNwkSIntKey := none, sNwkSIntKey := none
      nwkSEncKey := none, appSKey := some (keyEnv 7) }

/-- A v1.1 device that already holds a session. -/
def cDevC3 : EndDevice := { cDev with session := some cSess0 }

/-- C3 counterexample: a successful join on a device with an existing
session does not move that session into `session_fallback` — the stored
record's fallback differs from the old session (it is untouched). -/
theorem c3_counterexample :
    (handleJoin cCrypto cCfg cCtx true 5 (some cDevC3) (cReq 0)).result.isOk
      = true ∧
    cDevC3.session = some cSess0 ∧
    (handleJoin cCrypto cCfg cCtx true 5 (some cDevC3) (cReq 0)).stored.map
      EndDevice.sessionFallback ≠ some (some cSess0) := by decide

/-- C3 (amended): a successful `HandleJoin` installs the new session
`{ started_at = now, dev_addr, session_keys }`, but the previous session is
NOT moved into `session_fallback`: that field is left unchanged. -/
theorem c3_amended (c : Crypto) (cfg : Config) (ctx : CallCtx)
    (storeOk : Bool) (now : Nat) (lookup : Option EndDevice)
    (req : JoinRequest) (pr : Parsed) (dev : EndDevice) (ak : Nat)
    (resp : JoinResponse)
    (hpf : preflight cfg ctx lookup req = .ok (pr, dev, ak))
    (hres : (handleJoin c cfg ctx storeOk now lookup req).result = .ok resp) :
    ∃ dev2, (handleJoin c cfg ctx storeOk now lookup req).stored = some dev2 ∧
      dev2.sessionFallback = dev.sessionFallback ∧
      dev2.session = some { startedAt := now, devAddr := pr.devAddr
                            sessionKeys := resp.sessionKeys } := by
  obtain ⟨dev1, -, hn, -, hst⟩ :=
    handleJoin_ok_stored c cfg ctx storeOk now lookup req pr dev ak resp hpf hres
  obtain ⟨hf, -, -, -⟩ := nonceCheckStep_preserves _ _ _ _ hn
  exact ⟨commitJoin now pr resp dev1, hst, Eq.trans rfl hf, rfl⟩

/-- The response of the C3 run. -/
def cRespC3 : JoinResponse :=
  okD dResp (handleJoin cCrypto cCfg cCtx true 5 (some cDevC3) (cReq 0)).result

/-- C3 witness. -/
theorem c3_amended_witness :
    ∃ dev2,
      (handleJoin cCrypto cCfg cCtx true 5 (some cDevC3) (cReq 0)).stored
        = some dev2 ∧
      dev2.sessionFallback = cDevC3.sessionFallback ∧
      dev2.session = some { startedAt := 5, devAddr := (cParsed 0).devAddr
                            sessionKeys := cRespC3.sessionKeys } :=
  c3_amended cCrypto cCfg cCtx true 5 (some cDevC3) (cReq 0) (cParsed 0)
    cDevC3 1 cRespC3 (by decide) (by decide)

/-- C4 counterexample: a successful v1.1 join does append the request's
DevNonce to `used_dev_nonces` — the append is unconditional, not
restricted to the v1.0/1.0.x path. -/
theorem c4_counterexample :
    (cReq 3).selectedMacVersion = .v1_1 ∧
    (handleJoin cCrypto cCfg cCtx true 0 (some cDev) (cReq 3)).result.isOk
      = true ∧
    (handleJoin cCrypto cCfg cCtx true 0 (some cDev) (cReq 3)).stored.map
      EndDevice.usedDevNonces ≠ some cDev.usedDevNonces := by decide

/-- C4 (amended): every successful `HandleJoin`, for every MAC version
(v1.1 included), appends the request's DevNonce to `used_dev_nonces`. -/
theorem c4_amended (c : Crypto) (cfg : Config) (ctx : CallCtx)
    (storeOk : Bool) (now : Nat) (lookup : Option EndDevice)
    (req : JoinRequest) (pr : Parsed) (dev : EndDevice) (ak : Nat)
    (resp : JoinResponse)
    (hpf : preflight cfg ctx lookup req = .ok (pr, dev, ak))
    (hres : (handleJoin c cfg ctx storeOk now lookup req).result = .ok resp) :
    ∃ dev2, (handleJoin c cfg ctx storeOk now lookup req).stored = some dev2 ∧
      dev2.usedDevNonces = dev.usedDevNonces ++ [pr.devNonce] := by
  obtain ⟨dev1, -, hn, -, hst⟩ :=
    handleJoin_ok_stored c cfg ctx storeOk now lookup req pr dev ak resp hpf hres
  obtain ⟨-, -, hu, -⟩ := nonceCheckStep_preserves _ _ _ _ hn
  refine ⟨commitJoin now pr resp dev1, hst, ?_⟩
  rw [show (commitJoin now pr resp dev1).usedDevNonces
      = dev1.usedDevNonces ++ [pr.devNonce] from rfl, hu]

/-- The response of the C4 run. -/
def cRespC4 : JoinResponse :=
  okD dResp (handleJoin cCrypto cCfg cCtx true 0 (some cDev) (cReq 3)).result

/-- C4 witness. -/
theorem c4_amended_witness :
    ∃ dev2,
      (handleJoin cCrypto cCfg cCtx true 0 (some cDev) (cReq 3)).stored
        = some dev2 ∧
      dev2.usedDevNonces = cDev.usedDevNonces ++ [(cParsed 3).devNonce] :=
  c4_amended cCrypto cCfg cCtx true 0 (some cDev) (cReq 3) (cParsed 3) cDev 1
    cRespC4 (by decide) (by decide)

/-- C5 witness: a mismatched caller address errors and stores nothing. -/
theorem c5_no_store_on_error_witness :
    (handleJoin cCrypto cCfg { netAddress := "evil" } true 0 (some cDev)
      (cReq 0)).stored = none ∧
    (handleJoin cCrypto cCfg { netAddress := "evil" } true 0 (some cDev)
      (cReq 0)).storeFailed = false :=
  c5_no_store_on_error cCrypto cCfg { netAddress := "evil" } true 0 (some cDev)
    (cReq 0) (.addressMismatch "Network Server") (by decide)

/-- C6 witness. -/
theorem c6_address_mismatch_before_mic_witness :
    (handleJoin cCrypto cCfg { netAddress := "evil" } true 0 (some cDev)
      (cReq 0)).result = .error (.addressMismatch "Network Server") ∧
    (handleJoin cCrypto cCfg { netAddress := "evil" } true 0 (some cDev)
      (cReq 0)).micKeys = [] :=
  c6_address_mismatch_before_mic cCrypto cCfg { netAddress := "evil" } true 0
    (cReq 0) (cParsed 0) cDev (by decide) (by decide)

/-- The response of the C7 run. -/
def cRespC7 : JoinResponse :=
  okD dResp (handleJoin cCrypto cCfg cCtx true 0 (some cDev) (cReq 0)).result

/-- C7 witness. -/
theorem c7_store_failure_logged_only_witness :
    (handleJoin cCrypto cCfg cCtx false 0 (some cDev) (cReq 0)).result
      = .ok cRespC7 ∧
    (handleJoin cCrypto cCfg cCtx false 0 (some cDev) (cReq 0)).storeFailed
      = true ∧
    (handleJoin cCrypto cCfg cCtx false 0 (some cDev) (cReq 0)).stored
      = (handleJoin cCrypto cCfg cCtx true 0 (some cDev) (cReq 0)).stored :=
  c7_store_failure_logged_only cCrypto cCfg cCtx 0 (some cDev) (cReq 0)
    cRespC7 (by decide)

/-- A v1.1 device with the join-nonce check disabled. -/
def cDevC10 : EndDevice := { cDev with disableJoinNonceCheck := true, nextDevNonce := 42 }

/-- The response of the C10 run. -/
def cRespC10 : JoinResponse :=
  okD dResp (handleJoin cCrypto cCfg cCtx true 0 (some cDevC10) (cReq 7)).result

/-- C10 witness: DevNonce 7 is below the device counter 42, yet with the
check disabled the join succeeds and the counter stays 42. -/
theorem c10_disable_check_preserves_nonce_witness :
    ∃ dev2,
      (handleJoin cCrypto cCfg cCtx true 0 (some cDevC10) (cReq 7)).stored
        = some dev2 ∧
      dev2.nextDevNonce = cDevC10.nextDevNonce :=
  c10_disable_check_preserves_nonce cCrypto cCfg cCtx true 0 (some cDevC10)
    (cReq 7) (cParsed 7) cDevC10 1 cRespC10 (by decide) (by decide) (by decide)
    (by decide)

/-- C8: under the claim's preconditions (non-zero DevEUI, non-empty
SessionKeyID, caller address equal to the device's
`application_server_address`, device found), `GetAppSKey` behaves exactly
as the claim enumerates it: `NoSession` without a session; on a mismatched
current session the fallback is consulted and `SessionKeyIDMismatch`
returned when it is absent or also mismatched; a selected session without
an AppSKey envelope gives `AppSKeyEnvelopeNotFound`; otherwise the envelope
is returned. -/
theorem c8_getAppSKey_spec (ctx : CallCtx) (dev : EndDevice)
    (req : SessionKeyRequest)
    (h1 : req.devEUI ≠ 0) (h2 : req.sessionKeyID ≠ "")
    (h3 : ctx.netAddress = dev.applicationServerAddress) :
    getAppSKey ctx (some dev) req = getAppSKeySpecByClaim dev req := by
  cases hs : dev.session with
  | none => simp [getAppSKey, getAppSKeySpecByClaim, h1, h2, h3, hs]
  | some s =>
    by_cases hid : s.sessionKeys.sessionKeyID = req.sessionKeyID
    · simp [getAppSKey, getAppSKeySpecByClaim, h1, h2, h3, hs, hid]
    · cases hf : dev.sessionFallback with
      | none => simp [getAppSKey, getAppSKeySpecByClaim, h1, h2, h3, hs, hid, hf]
      | some f =>
        by_cases hfid : f.sessionKeys.sessionKeyID = req.sessionKeyID
        · simp [getAppSKey, getAppSKeySpecByClaim, h1, h2, h3, hs, hid, hf, hfid]
        · simp [getAppSKey, getAppSKeySpecByClaim, h1, h2, h3, hs, hid, hf, hfid]

/-- The application-server caller context matching `cDev`. -/
def cCtxAS : CallCtx := { netAddress := "as.example.com" }

/-- A key request for the session ID held by `cSess0`. -/
def cSKReq : SessionKeyRequest := { devEUI := 1, sessionKeyID := "old" }

/-- C8 witness. -/
theorem c8_getAppSKey_spec_witness :
    getAppSKey cCtxAS (some cDevC3) cSKReq = getAppSKeySpecByClaim cDevC3 cSKReq :=
  c8_getAppSKey_spec cCtxAS cDevC3 cSKReq (by decide) (by decide) (by decide)

/-- The encoded CFList is always 16 bytes. -/
theorem encodeCFList_length (c : List Nat) : (encodeCFList c).length = 16 := by
  simp [encodeCFList]

/-- The Join-Accept plaintext is 13 bytes without a CFList, 29 with one. -/
theorem buildJoinAccept_length (major : Major) (jn netID devAddr dl rx : Nat)
    (cf : Option (List Nat)) :
    (buildJoinAccept major jn netID devAddr dl rx cf).length
      = if cf = none then 13 else 29 := by
  cases cf with
  | none => simp [buildJoinAccept, le]
  | some c => simp [buildJoinAccept, le, encodeCFList_length]

theorem joinAcceptBuf_length (dev : EndDevice) (pr : Parsed)
    (req : JoinRequest) :
    (joinAcceptBuf dev pr req).length = if req.cfList = none then 13 else 29 :=
  buildJoinAccept_length _ _ _ _ _ _ _

/-- A successful version path always produces a raw payload four bytes
longer than the plaintext buffer: the first buffer byte, then the encrypted
remainder plus the 4-byte MIC, with length-preserving encryption. -/
theorem versionPath_ok_length (c : Crypto) (ver : MACVersion)
    (dev : EndDevice) (ak : Nat) (pr : Parsed) (jn : Nat) (b : List Nat)
    (netID : Nat) (resp : JoinResponse) (ks : List Nat)
    (hEnc : ∀ k bs r, c.encryptJoinAccept k bs = some r → r.length = bs.length)
    (hMic1 : ∀ k t e n bs m, c.computeJoinAcceptMIC k t e n bs = some m →
      m.length = 4)
    (hMic0 : ∀ k bs m, c.computeLegacyJoinAcceptMIC k bs = some m →
      m.length = 4)
    (hb : 1 ≤ b.length)
    (h : versionPath c ver dev ak pr jn b netID = (.ok resp, ks)) :
    resp.rawPayload.length = b.length + 4 := by
  unfold versionPath at h
  repeat' split at h
  all_goals try exact Except.noConfusion (congrArg Prod.fst h)
  all_goals (
    simp only [Prod.mk.injEq, Except.ok.injEq] at h
    obtain ⟨rfl, -⟩ := h
    rename_i u1 mic hmic u2 enc henc
    have hm : mic.length = 4 := by
      first
        | exact hMic1 _ _ _ _ _ _ hmic
        | exact hMic0 _ _ _ hmic
    have he : enc.length = (b.drop 1 ++ mic).length := hEnc _ _ _ henc
    simp only [JoinResponse.rawPayload, List.length_append, List.length_take,
      List.length_drop, he, hm]
    omega)

/-- C9: every successful `HandleJoin` returns a raw Join-Accept payload of
exactly 17 bytes when the request carries no CFList and exactly 33 bytes
when it does, given the 4-byte MIC type and the length-preserving ECB
encryption of the external crypto primitives. -/
theorem c9_join_accept_length (c : Crypto) (cfg : Config) (ctx : CallCtx)
    (storeOk : Bool) (now : Nat) (lookup : Option EndDevice)
    (req : JoinRequest) (resp : JoinResponse)
    (hEnc : ∀ k bs r, c.encryptJoinAccept k bs = some r → r.length = bs.length)
    (hMic1 : ∀ k t e n bs m, c.computeJoinAcceptMIC k t e n bs = some m →
      m.length = 4)
    (hMic0 : ∀ k bs m, c.computeLegacyJoinAcceptMIC k bs = some m →
      m.length = 4)
    (hres : (handleJoin c cfg ctx storeOk now lookup req).result = .ok resp) :
    resp.rawPayload.length = if req.cfList = none then 17 else 33 := by
  rcases hpf : preflight cfg ctx lookup req with e | ⟨pr, dev, ak⟩
  · have hj : handleJoin c cfg ctx storeOk now lookup req
        = { result := .error e, micKeys := [], stored := none
            storeFailed := false } := by
      unfold handleJoin
      rw [hpf]
    rw [hj] at hres
    exact absurd hres (by simp)
  · obtain ⟨dev1, ks, -, hv, -⟩ :=
      handleJoin_ok_stored c cfg ctx storeOk now lookup req pr dev ak resp hpf hres
    have hb1 : 1 ≤ (joinAcceptBuf dev pr req).length := by
      rw [joinAcceptBuf_length]
      split <;> norm_num
    have hlen := versionPath_ok_length c req.selectedMacVersion dev1 ak pr
      (dev.nextJoinNonce % 16777216) (joinAcceptBuf dev pr req) req.netID
      resp ks hEnc hMic1 hMic0 hb1 hv
    rw [hlen, joinAcceptBuf_length]
    split <;> norm_num

/-- The response of the C9 run. -/
def cRespC9 : JoinResponse :=
  okD dResp (handleJoin cCrypto cCfg cCtx true 0 (some cDev) (cReq 11)).result

/-- C9 witness. -/
theorem c9_join_accept_length_witness :
    cRespC9.rawPayload.length = if (cReq 11).cfList = none then 17 else 33 :=
  c9_join_accept_length cCrypto cCfg cCtx true 0 (some cDev) (cReq 11) cRespC9
    (by intro k bs r h; cases h; rfl)
    (by intro k t e n bs m h; cases h; rfl)
    (by intro k bs m h; cases h; rfl)
    (by decide)

end joinserver
